import Mathlib

/-!
Verification of the RiSC-32 assembler and virtual machine.

The definitions below are a shallow embedding of the Go sources:

* namespace Vm embeds the CPU emulator of the vm package, following the
  most recent revision of vm.go (the one that defines OpcodeIRET, the
  Interrupt entry point, the MaybeInterrupt poll and the TTY MMIO hooks);
  the paging logic of VM.Memory is identical in the older revisions.
* namespace Asm embeds the instruction encoders of pkg/asm/instruction.go.

Machine words (uint32 in Go) are modelled as Nat; every arithmetic
operation that can wrap in Go carries an explicit reduction modulo 2^32,
and Go bit operations are modelled with the same masks the source uses.
Wall-clock time and the TCP socket behind the TTY are external to the
machine state; the outcome of the per-instruction device poll is passed
in as a PollEnv value (clockFire models the clock period having elapsed,
ttyResult models the return of TTY.InterruptPending, where none stands
for the detach error of the serial implementation).
-/

namespace RiSC32

/-- Pointwise update of a register or memory file modelled as a function. -/
def updf (f : Nat → Nat) (i v : Nat) : Nat → Nat :=
  fun j => if j = i then v else f j

/-- Decidable equality for Except values, so that concrete runs of the
embedded functions can be checked by decide. -/
instance {ε α : Type} [DecidableEq ε] [DecidableEq α] : DecidableEq (Except ε α) := fun x y =>
  match x, y with
  | Except.error a, Except.error b =>
      decidable_of_iff (a = b) ⟨fun h => by rw [h], fun h => by injection h⟩
  | Except.error a, Except.ok b => Decidable.isFalse (fun hc => Except.noConfusion hc)
  | Except.ok a, Except.error b => Decidable.isFalse (fun hc => Except.noConfusion hc)
  | Except.ok a, Except.ok b =>
      decidable_of_iff (a = b) ⟨fun h => by rw [h], fun h => by injection h⟩

namespace Vm

/-- Opcode constants of the vm package, in declaration order (iota). -/
def OpcodeJALR : Nat := 0

/-- Opcode ADD = 1. -/
def OpcodeADD : Nat := 1

/-- Opcode ADDI = 2. -/
def OpcodeADDI : Nat := 2

/-- Opcode NAND = 3. -/
def OpcodeNAND : Nat := 3

/-- Opcode LUI = 4. -/
def OpcodeLUI : Nat := 4

/-- Opcode SW = 5. -/
def OpcodeSW : Nat := 5

/-- Opcode LW = 6. -/
def OpcodeLW : Nat := 6

/-- Opcode BEQ = 7. -/
def OpcodeBEQ : Nat := 7

/-- Opcode WSR = 8. -/
def OpcodeWSR : Nat := 8

/-- Opcode RSR = 9. -/
def OpcodeRSR : Nat := 9

/-- Opcode IRET = 10. -/
def OpcodeIRET : Nat := 10

/-- MemorySize is the memory size in 32-bit-wide words. -/
def MemorySize : Nat := 1048576

/-- NumRegisters is the number of general purpose registers. -/
def NumRegisters : Nat := 32

/-- NumStatusRegisters is the number of status registers. -/
def NumStatusRegisters : Nat := 4

/-- Status register 0 flag: user mode. -/
def StatusUserMode : Nat := 1

/-- Status register 0 flag: paging enabled. -/
def StatusPaging : Nat := 2

/-- Status register 0 flag: interrupts enabled. -/
def StatusInterrupts : Nat := 4

/-- Memory access flag: execute. -/
def MemoryExec : Nat := 1

/-- Memory access flag: write. -/
def MemoryWrite : Nat := 2

/-- Memory access flag: read. -/
def MemoryRead : Nat := 4

/-- Interrupt request: halt. -/
def IrqHALT : Nat := 0

/-- Interrupt request: clock. -/
def IrqClock : Nat := 1

/-- Interrupt request: TTY. -/
def IrqTTY : Nat := 2

/-- Memory mapped register: clock frequency (1 shl 17). -/
def MMClockFrequency : Nat := 131072

/-- Memory mapped register: TTY status. -/
def MMTTYStatus : Nat := 131073

/-- Memory mapped register: TTY input. -/
def MMTTYIn : Nat := 131074

/-- Memory mapped register: TTY output. -/
def MMTTYOut : Nat := 131075

/-- Registers of an attached serial TTY (fields inr, outr, statr of
SerialTTY in tty.go). -/
structure TTYRegs where
  statr : Nat
  inr : Nat
  outr : Nat
  deriving DecidableEq

/-- The machine state of the VM struct: clock frequency CF, general
purpose registers GPR, interrupt shadows IPC / IS0 / ISP, memory M,
program counter PC, status registers S, and the optionally attached
TTY with its device registers. The LTR timestamp is wall-clock state
and is left outside the model. -/
structure VM where
  CF : Nat
  GPR : Nat → Nat
  IPC : Nat
  IS0 : Nat
  ISP : Nat
  M : Nat → Nat
  PC : Nat
  S : Nat → Nat
  tty : Option TTYRegs

/-- Errors surfaced by the VM: ErrHalted, ErrNotPermitted, ErrSIGSEGV of
vm.go, plus the detach error the serial TTY poll can return. -/
inductive VMError where
  | halted
  | notPermitted
  | sigsegv
  | ttyDetach
  deriving DecidableEq

/-- A resolved memory reference: one of the MMIO device registers or a
physical memory cell, as produced by VM.Memory. -/
inductive MemRef where
  | cf
  | ttyStat
  | ttyIn
  | ttyOut
  | mem (addr : Nat)
  deriving DecidableEq

/-- DecodeOpcode decodes the opcode of an instruction. -/
def DecodeOpcode (ci : Nat) : Nat :=
  (ci >>> 27) &&& 31

/-- DecodeRA decodes the first register of an instruction. -/
def DecodeRA (ci : Nat) : Nat :=
  (ci >>> 22) &&& 31

/-- DecodeRB decodes the second register of an instruction. -/
def DecodeRB (ci : Nat) : Nat :=
  (ci >>> 17) &&& 31

/-- DecodeRC decodes the third register of an instruction. -/
def DecodeRC (ci : Nat) : Nat :=
  ci &&& 31

/-- SignExtend17 extends the sign to negative values over 17 bit. -/
def SignExtend17 (v : Nat) : Nat :=
  if v &&& 65536 ≠ 0 then v ||| 4294836224 else v

/-- DecodeImm17 decodes the signed 17 bit immediate. -/
def DecodeImm17 (ci : Nat) : Nat :=
  SignExtend17 (ci &&& 131071)

/-- DecodeImm22 decodes the unsigned 22 bit immediate. -/
def DecodeImm22 (ci : Nat) : Nat :=
  ci &&& 4194303

/-- Decode decodes an instruction. -/
def Decode (ci : Nat) : Nat × Nat × Nat × Nat × Nat × Nat :=
  (DecodeOpcode ci, DecodeRA ci, DecodeRB ci, DecodeRC ci,
    DecodeImm17 ci, DecodeImm22 ci)

/-- The paging and bounds-checking part of VM.Memory (the code that runs
when the requested offset is not routed to a device register). Mask 1023
checks the 1024 alignment of the page table base, mask 127 selects the
flag bits of a page entry, mask 4294966272 is the 22-bit base-address
mask and mask 1023 the in-page offset, exactly as in the source; the
uint32 additions carry mod 2^32. -/
def VM.pagedAccess (vm : VM) (off flags : Nat) : Except VMError Nat :=
  if (vm.S 0) &&& StatusPaging ≠ 0 then
    if (vm.S 1) &&& 1023 ≠ 0 then Except.error VMError.sigsegv
    else if (vm.S 1 + off >>> 10) % 4294967296 ≥ MemorySize then
      Except.error VMError.sigsegv
    else if ((vm.M ((vm.S 1 + off >>> 10) % 4294967296)) &&& 127) &&& flags ≠ flags then
      Except.error VMError.notPermitted
    else
      Except.ok ((((vm.M ((vm.S 1 + off >>> 10) % 4294967296)) &&& 4294966272)
        + (off &&& 1023)) % 4294967296)
  else Except.ok off

/-- Memory accesses an address in memory: MMIO dispatch first (the clock
register always, the TTY registers when a TTY is attached), then paging,
then the physical bounds check. -/
def VM.Memory (vm : VM) (off flags : Nat) : Except VMError MemRef :=
  if off = MMClockFrequency then Except.ok MemRef.cf
  else if vm.tty.isSome ∧ off = MMTTYStatus then Except.ok MemRef.ttyStat
  else if vm.tty.isSome ∧ off = MMTTYIn then Except.ok MemRef.ttyIn
  else if vm.tty.isSome ∧ off = MMTTYOut then Except.ok MemRef.ttyOut
  else
    match vm.pagedAccess off flags with
    | Except.error e => Except.error e
    | Except.ok physical =>
        if physical ≥ MemorySize then Except.error VMError.sigsegv
        else Except.ok (MemRef.mem physical)

/-- Reading through a resolved memory reference. -/
def VM.readRef (vm : VM) : MemRef → Nat
  | MemRef.cf => vm.CF
  | MemRef.ttyStat => match vm.tty with | some t => t.statr | none => 0
  | MemRef.ttyIn => match vm.tty with | some t => t.inr | none => 0
  | MemRef.ttyOut => match vm.tty with | some t => t.outr | none => 0
  | MemRef.mem a => vm.M a

/-- Writing through a resolved memory reference. -/
def VM.writeRef (vm : VM) (r : MemRef) (v : Nat) : VM :=
  match r with
  | MemRef.cf => { vm with CF := v }
  | MemRef.ttyStat => { vm with tty := vm.tty.map fun t => { t with statr := v } }
  | MemRef.ttyIn => { vm with tty := vm.tty.map fun t => { t with inr := v } }
  | MemRef.ttyOut => { vm with tty := vm.tty.map fun t => { t with outr := v } }
  | MemRef.mem a => { vm with M := updf vm.M a v }

/-- The clamp at the top of Interrupt: any code not between 0 and 15 is
mapped to the hard halt vector. -/
def clampIrq (code : Nat) : Nat :=
  if code ≥ 16 then IrqHALT else code

/-- Interrupt executes an interrupt service routine: alignment checks on
S 2 and S 3, clamp of the code to the halt vector, save of the shadows,
switch to the kernel stack, clearing of the UserMode, Interrupts and
Paging bits (Go AND-NOT 7 over uint32, hence mask 4294967288), and the
vector table jump with its bounds check. The method mutates the receiver
in place, so it returns the (possibly partially updated) state together
with the optional error: the shadow saves, the stack switch and the S 0
clearing happen before the vector bounds check, hence the error branch
of that check keeps them; the vector index reads S 2 and M, which those
mutations do not touch. -/
def VM.Interrupt (vm : VM) (code : Nat) : VM × Option VMError :=
  if (vm.S 2) &&& 1023 ≠ 0 then (vm, some VMError.sigsegv)
  else if (vm.S 3) &&& 1023 ≠ 0 then (vm, some VMError.sigsegv)
  else if (vm.S 2 + clampIrq code) % 4294967296 ≥ MemorySize then
    ({ vm with
      IS0 := vm.S 0
      ISP := vm.GPR 29
      IPC := vm.PC
      GPR := updf vm.GPR 29 (vm.S 3)
      S := updf vm.S 0 ((vm.S 0) &&& 4294967288) }, some VMError.sigsegv)
  else
    ({ vm with
      IS0 := vm.S 0
      ISP := vm.GPR 29
      IPC := vm.PC
      GPR := updf vm.GPR 29 (vm.S 3)
      S := updf vm.S 0 ((vm.S 0) &&& 4294967288)
      PC := vm.M ((vm.S 2 + clampIrq code) % 4294967296) }, none)

/-- Outcome of the device poll that MaybeInterrupt performs: whether the
clock period has elapsed, and the result of TTY.InterruptPending (none
models the detach error of the serial implementation). -/
structure PollEnv where
  clockFire : Bool
  ttyResult : Option Bool
  deriving DecidableEq

/-- MaybeInterrupt checks whether any hardware has pending interrupts and
services the highest priority one (clock before TTY), doing nothing when
the Interrupts flag is clear. -/
def VM.MaybeInterrupt (vm : VM) (env : PollEnv) : VM × Option VMError :=
  if (vm.S 0) &&& StatusInterrupts = 0 then (vm, none)
  else if vm.CF > 0 ∧ env.clockFire = true then vm.Interrupt IrqClock
  else
    match vm.tty, env.ttyResult with
    | none, _ => (vm, none)
    | some _, none => (vm, some VMError.ttyDetach)
    | some _, some true => vm.Interrupt IrqTTY
    | some _, some false => (vm, none)

/-- The switch statement of VM.Execute: one arm per opcode, returning the
updated state and the optional early-return error. Unmatched opcodes fall
through with no effect, as in a Go switch without default. -/
def VM.execSwitch (vm : VM) (opcode ra rb rc imm17 imm22 : Nat) : VM × Option VMError :=
  if opcode = OpcodeJALR then
    if ra ≠ 0 ∨ rb ≠ 0 then
      let vm1 : VM := { vm with GPR := updf vm.GPR ra vm.PC }
      ({ vm1 with PC := vm1.GPR rb }, none)
    else if (vm.S 0) &&& StatusInterrupts = 0 then (vm, some VMError.halted)
    else vm.Interrupt imm17
  else if opcode = OpcodeADD then
    ({ vm with GPR := updf vm.GPR ra ((vm.GPR rb + vm.GPR rc) % 4294967296) }, none)
  else if opcode = OpcodeADDI then
    ({ vm with GPR := updf vm.GPR ra ((vm.GPR rb + imm17) % 4294967296) }, none)
  else if opcode = OpcodeNAND then
    let nanded := ((vm.GPR rb &&& vm.GPR rc) &&& 4294967295) ^^^ 4294967295
    ({ vm with GPR := updf vm.GPR ra nanded }, none)
  else if opcode = OpcodeLUI then
    ({ vm with GPR := updf vm.GPR ra (imm22 <<< 10) }, none)
  else if opcode = OpcodeSW then
    match vm.Memory ((vm.GPR rb + imm17) % 4294967296) MemoryWrite with
    | Except.error e => (vm, some e)
    | Except.ok r => (vm.writeRef r (vm.GPR ra), none)
  else if opcode = OpcodeLW then
    match vm.Memory ((vm.GPR rb + imm17) % 4294967296) MemoryRead with
    | Except.error e => (vm, some e)
    | Except.ok r => ({ vm with GPR := updf vm.GPR ra (vm.readRef r) }, none)
  else if opcode = OpcodeBEQ then
    if vm.GPR ra = vm.GPR rb then
      ({ vm with PC := (vm.PC + imm17) % 4294967296 }, none)
    else (vm, none)
  else if opcode = OpcodeWSR then
    if (vm.S 0) &&& StatusUserMode ≠ 0 then (vm, some VMError.notPermitted)
    else if imm22 ≥ NumStatusRegisters then (vm, some VMError.notPermitted)
    else ({ vm with S := updf vm.S imm22 (vm.GPR ra) }, none)
  else if opcode = OpcodeRSR then
    if (vm.S 0) &&& StatusUserMode ≠ 0 then (vm, some VMError.notPermitted)
    else if imm22 ≥ NumStatusRegisters then (vm, some VMError.notPermitted)
    else ({ vm with GPR := updf vm.GPR ra (vm.S imm22) }, none)
  else if opcode = OpcodeIRET then
    if (vm.S 0) &&& StatusUserMode ≠ 0 then (vm, some VMError.notPermitted)
    else ({ vm with
      S := updf vm.S 0 vm.IS0
      GPR := updf vm.GPR 29 vm.ISP
      PC := vm.IPC }, none)
  else (vm, none)

/-- The body of VM.Execute before the deferred write: decode, dispatch on
the opcode, and on the non-error paths run the device poll. -/
def VM.execBody (vm : VM) (ci : Nat) (env : PollEnv) : VM × Option VMError :=
  match vm.execSwitch (DecodeOpcode ci) (DecodeRA ci) (DecodeRB ci) (DecodeRC ci)
      (DecodeImm17 ci) (DecodeImm22 ci) with
  | (vm1, some e) => (vm1, some e)
  | (vm1, none) => vm1.MaybeInterrupt env

/-- Execute executes the current instruction ci. The deferred statement of
the source resets GPR 0 to zero on every return path, error or not. -/
def VM.Execute (vm : VM) (ci : Nat) (env : PollEnv) : VM × Option VMError :=
  let r := vm.execBody ci env
  ({ r.1 with GPR := updf r.1.GPR 0 0 }, r.2)

end Vm

namespace Asm

/-- Opcode constants of the asm package, in declaration order (iota):
HALT is first so that uninitialized memory auto-halts. -/
def OpcodeHALT : Nat := 0

/-- Asm opcode ADD = 1. -/
def OpcodeADD : Nat := 1

/-- Asm opcode ADDI = 2. -/
def OpcodeADDI : Nat := 2

/-- Asm opcode NAND = 3. -/
def OpcodeNAND : Nat := 3

/-- Asm opcode LUI = 4. -/
def OpcodeLUI : Nat := 4

/-- Asm opcode SW = 5. -/
def OpcodeSW : Nat := 5

/-- Asm opcode LW = 6. -/
def OpcodeLW : Nat := 6

/-- Asm opcode BEQ = 7. -/
def OpcodeBEQ : Nat := 7

/-- Asm opcode JALR = 8. -/
def OpcodeJALR : Nat := 8

/-- Asm opcode WSR = 9. -/
def OpcodeWSR : Nat := 9

/-- Asm opcode RSR = 10. -/
def OpcodeRSR : Nat := 10

/-- CastToUint32 casts the given value to uint32: a signed range check
for the given field width followed by the Go uint32 conversion, which
keeps the low 32 bits of the two's-complement representation. The error
carries no payload here (the source wraps ErrOutOfRange with the line
number). Callers pass 1 <= bits <= 32. -/
def CastToUint32 (value : Int) (bits : Nat) : Except Unit Nat :=
  if value < -(2 ^ (bits - 1)) ∨ value > 2 ^ (bits - 1) - 1 then Except.error ()
  else Except.ok (Int.toNat (value % 4294967296))

/-- The ADD instruction with its register fields; line number and label
do not affect the emitted word and are omitted. Immediate operands are
modelled as the already resolved int64 value that ResolveImmediate
obtains from the literal or the label table. -/
structure InstructionADD where
  RA : Nat
  RB : Nat
  RC : Nat

/-- Encode of the ADD instruction. -/
def InstructionADD.Encode (ia : InstructionADD) : Except Unit Nat :=
  Except.ok (((OpcodeADD &&& 31) <<< 27) ||| ((ia.RA &&& 31) <<< 22)
    ||| ((ia.RB &&& 31) <<< 17) ||| (ia.RC &&& 31))

/-- The ADDI instruction. -/
structure InstructionADDI where
  RA : Nat
  RB : Nat
  Imm : Int

/-- Encode of the ADDI instruction: the immediate is resolved with a
17-bit range check and masked to 17 bits. -/
def InstructionADDI.Encode (ia : InstructionADDI) : Except Unit Nat :=
  match CastToUint32 ia.Imm 17 with
  | Except.error e => Except.error e
  | Except.ok imm =>
      Except.ok (((OpcodeADDI &&& 31) <<< 27) ||| ((ia.RA &&& 31) <<< 22)
        ||| ((ia.RB &&& 31) <<< 17) ||| (imm &&& 131071))

/-- The NAND instruction. -/
structure InstructionNAND where
  RA : Nat
  RB : Nat
  RC : Nat

/-- Encode of the NAND instruction. -/
def InstructionNAND.Encode (ia : InstructionNAND) : Except Unit Nat :=
  Except.ok (((OpcodeNAND &&& 31) <<< 27) ||| ((ia.RA &&& 31) <<< 22)
    ||| ((ia.RB &&& 31) <<< 17) ||| (ia.RC &&& 31))

/-- The LUI instruction. -/
structure InstructionLUI where
  RA : Nat
  Imm : Int

/-- Encode of the LUI instruction: the immediate is resolved with a
32-bit range check and the emitted field is the immediate shifted right
by 10. -/
def InstructionLUI.Encode (ia : InstructionLUI) : Except Unit Nat :=
  match CastToUint32 ia.Imm 32 with
  | Except.error e => Except.error e
  | Except.ok imm =>
      Except.ok (((OpcodeLUI &&& 31) <<< 27) ||| ((ia.RA &&& 31) <<< 22) ||| (imm >>> 10))

/-- The SW instruction. -/
structure InstructionSW where
  RA : Nat
  RB : Nat
  Imm : Int

/-- Encode of the SW instruction. -/
def InstructionSW.Encode (ia : InstructionSW) : Except Unit Nat :=
  match CastToUint32 ia.Imm 17 with
  | Except.error e => Except.error e
  | Except.ok imm =>
      Except.ok (((OpcodeSW &&& 31) <<< 27) ||| ((ia.RA &&& 31) <<< 22)
        ||| ((ia.RB &&& 31) <<< 17) ||| (imm &&& 131071))

/-- The LW instruction. -/
structure InstructionLW where
  RA : Nat
  RB : Nat
  Imm : Int

/-- Encode of the LW instruction. -/
def InstructionLW.Encode (ia : InstructionLW) : Except Unit Nat :=
  match CastToUint32 ia.Imm 17 with
  | Except.error e => Except.error e
  | Except.ok imm =>
      Except.ok (((OpcodeLW &&& 31) <<< 27) ||| ((ia.RA &&& 31) <<< 22)
        ||| ((ia.RB &&& 31) <<< 17) ||| (imm &&& 131071))

/-- The BEQ instruction. -/
structure InstructionBEQ where
  RA : Nat
  RB : Nat
  Imm : Int

/-- Encode of the BEQ instruction: the immediate is the absolute target,
resolved with a 32-bit check; the emitted field is target - (pc + 1)
cast into 17 signed bits. -/
def InstructionBEQ.Encode (ia : InstructionBEQ) (pc : Nat) : Except Unit Nat :=
  match CastToUint32 ia.Imm 32 with
  | Except.error e => Except.error e
  | Except.ok imm =>
      match CastToUint32 ((imm : Int) - (pc : Int) - 1) 17 with
      | Except.error e => Except.error e
      | Except.ok offset =>
          Except.ok (((OpcodeBEQ &&& 31) <<< 27) ||| ((ia.RA &&& 31) <<< 22)
            ||| ((ia.RB &&& 31) <<< 17) ||| (offset &&& 131071))

/-- The JALR instruction: only the two register fields are emitted. -/
structure InstructionJALR where
  RA : Nat
  RB : Nat

/-- Encode of the JALR instruction. -/
def InstructionJALR.Encode (ia : InstructionJALR) : Except Unit Nat :=
  Except.ok (((OpcodeJALR &&& 31) <<< 27) ||| ((ia.RA &&& 31) <<< 22)
    ||| ((ia.RB &&& 31) <<< 17))

/-- The HALT instruction. -/
structure InstructionHALT where

/-- Encode of the HALT instruction: the all-zero word. -/
def InstructionHALT.Encode (_ia : InstructionHALT) : Except Unit Nat :=
  Except.ok ((OpcodeHALT &&& 31) <<< 27)

/-- The LLI pseudo-instruction. -/
structure InstructionLLI where
  RA : Nat
  Imm : Int

/-- Encode of the LLI pseudo-instruction: an ADDI of RA with itself and
the low 10 bits of the immediate. -/
def InstructionLLI.Encode (ia : InstructionLLI) : Except Unit Nat :=
  match CastToUint32 ia.Imm 32 with
  | Except.error e => Except.error e
  | Except.ok imm =>
      Except.ok (((OpcodeADDI &&& 31) <<< 27) ||| ((ia.RA &&& 31) <<< 22)
        ||| ((ia.RA &&& 31) <<< 17) ||| (imm &&& 1023))

/-- The .SPACE or .FILL pseudo-instruction. -/
structure InstructionDATA where
  Value : Nat

/-- Encode of the DATA pseudo-instruction. -/
def InstructionDATA.Encode (ia : InstructionDATA) : Except Unit Nat :=
  Except.ok ia.Value

/-- The WSR instruction. -/
structure InstructionWSR where
  RA : Nat
  Imm : Int

/-- Encode of the WSR instruction as written in the source: the
immediate is resolved with a 32-bit check and the emitted field is the
immediate shifted right by 10, exactly like LUI. -/
def InstructionWSR.Encode (ia : InstructionWSR) : Except Unit Nat :=
  match CastToUint32 ia.Imm 32 with
  | Except.error e => Except.error e
  | Except.ok imm =>
      Except.ok (((OpcodeWSR &&& 31) <<< 27) ||| ((ia.RA &&& 31) <<< 22) ||| (imm >>> 10))

/-- The RSR instruction. -/
structure InstructionRSR where
  RA : Nat
  Imm : Int

/-- Encode of the RSR instruction, with the same shifted immediate as
WSR. -/
def InstructionRSR.Encode (ia : InstructionRSR) : Except Unit Nat :=
  match CastToUint32 ia.Imm 32 with
  | Except.error e => Except.error e
  | Except.ok imm =>
      Except.ok (((OpcodeRSR &&& 31) <<< 27) ||| ((ia.RA &&& 31) <<< 22) ||| (imm >>> 10))

/-- Reinterpretation of a uint32 value as a signed int32, as performed
by the int32 casts in the Disassemble routine of the vm package. -/
def toInt32 (x : Nat) : Int :=
  if x < 2147483648 then (x : Int) else (x : Int) - 4294967296

/-- Re-encoding of a decoded word: the CPU Decode of the vm package
names the operation (through the same opcode dispatch its Execute and
Disassemble use), and the instruction of the asm package for that
mnemonic re-encodes the decoded fields, immediates spelled the way
Disassemble prints them (imm17 as a signed int32 value, imm22 as an
unsigned value). The vm opcode IRET has no corresponding instruction in
the asm package, so re-encoding it fails. -/
def reencode (pc w : Nat) : Except Unit Nat :=
  if Vm.DecodeOpcode w = Vm.OpcodeJALR then
    (InstructionJALR.mk (Vm.DecodeRA w) (Vm.DecodeRB w)).Encode
  else if Vm.DecodeOpcode w = Vm.OpcodeADD then
    (InstructionADD.mk (Vm.DecodeRA w) (Vm.DecodeRB w) (Vm.DecodeRC w)).Encode
  else if Vm.DecodeOpcode w = Vm.OpcodeADDI then
    (InstructionADDI.mk (Vm.DecodeRA w) (Vm.DecodeRB w) (toInt32 (Vm.DecodeImm17 w))).Encode
  else if Vm.DecodeOpcode w = Vm.OpcodeNAND then
    (InstructionNAND.mk (Vm.DecodeRA w) (Vm.DecodeRB w) (Vm.DecodeRC w)).Encode
  else if Vm.DecodeOpcode w = Vm.OpcodeLUI then
    (InstructionLUI.mk (Vm.DecodeRA w) ((Vm.DecodeImm22 w : Nat) : Int)).Encode
  else if Vm.DecodeOpcode w = Vm.OpcodeSW then
    (InstructionSW.mk (Vm.DecodeRA w) (Vm.DecodeRB w) (toInt32 (Vm.DecodeImm17 w))).Encode
  else if Vm.DecodeOpcode w = Vm.OpcodeLW then
    (InstructionLW.mk (Vm.DecodeRA w) (Vm.DecodeRB w) (toInt32 (Vm.DecodeImm17 w))).Encode
  else if Vm.DecodeOpcode w = Vm.OpcodeBEQ then
    (InstructionBEQ.mk (Vm.DecodeRA w) (Vm.DecodeRB w) (toInt32 (Vm.DecodeImm17 w))).Encode pc
  else if Vm.DecodeOpcode w = Vm.OpcodeWSR then
    (InstructionWSR.mk (Vm.DecodeRA w) ((Vm.DecodeImm22 w : Nat) : Int)).Encode
  else if Vm.DecodeOpcode w = Vm.OpcodeRSR then
    (InstructionRSR.mk (Vm.DecodeRA w) ((Vm.DecodeImm22 w : Nat) : Int)).Encode
  else Except.error ()

end Asm

/-- The address translation of VM.Memory for a paged, non-MMIO access as
the specification words it: Segfault when the page table base in S 1 is
not a multiple of 1024 or when the page entry index S 1 + (addr shr 10)
is out of the 2^20 words of memory; NotPermitted unless every requested
flag bit is present in the page entry; otherwise the physical address is
(entry AND PAGE_MASK) OR (addr AND 1023), Segfault when that address is
out of the 2^20 words. Used to compare VM.Memory against the
specification sentence by sentence. -/
def pagedTranslateSpec (vm : Vm.VM) (off flags : Nat) : Except Vm.VMError Vm.MemRef :=
  if vm.S 1 % 1024 ≠ 0 then Except.error Vm.VMError.sigsegv
  else if (vm.S 1 + off >>> 10) % 4294967296 ≥ 2 ^ 20 then Except.error Vm.VMError.sigsegv
  else if vm.M ((vm.S 1 + off >>> 10) % 4294967296) &&& flags ≠ flags then
    Except.error Vm.VMError.notPermitted
  else if ((vm.M ((vm.S 1 + off >>> 10) % 4294967296) &&& 4294966272) ||| (off &&& 1023)) ≥ 2 ^ 20 then
    Except.error Vm.VMError.sigsegv
  else
    Except.ok (Vm.MemRef.mem
      ((vm.M ((vm.S 1 + off >>> 10) % 4294967296) &&& 4294966272) ||| (off &&& 1023)))

/-- A zeroed machine: all registers, shadows and memory zero, no TTY. -/
def vmW : Vm.VM :=
  { CF := 0, GPR := fun _ => 0, IPC := 0, IS0 := 0, ISP := 0,
    M := fun _ => 0, PC := 0, S := fun _ => 0, tty := none }

/-- A machine whose interrupt vector base S 2 equals 2^20: the 1024
alignment check passes but the vector table lookup is out of memory, so
interrupt entry faults after the shadows were already overwritten. -/
def vmA : Vm.VM :=
  { CF := 0, GPR := updf (fun _ => 0) 29 5, IPC := 0, IS0 := 0, ISP := 0,
    M := fun _ => 0, PC := 7, S := updf (fun _ => 0) 2 1048576, tty := none }

/-- A machine with paging enabled, an aligned page table at address 0,
and every memory word equal to 7 (a page entry with base 0 and all of
the R, W and X bits). -/
def vmP : Vm.VM :=
  { CF := 0, GPR := fun _ => 0, IPC := 0, IS0 := 0, ISP := 0,
    M := fun _ => 7, PC := 0, S := updf (fun _ => 0) 0 2, tty := none }

/-- A quiet device poll: the clock period has not elapsed and the TTY
reports no pending interrupt. -/
def envQ : Vm.PollEnv := { clockFire := false, ttyResult := some false }

/-! ### Bit-manipulation toolkit -/

/-- Disjoint or is addition: when a is a multiple of a power of two that
bounds b, the bitwise or of a and b coincides with their sum. -/
lemma lor_eq_add_gen (k m a b : Nat) (hm : m = 2 ^ k) (ha : a % m = 0) (hb : b < m) :
    a ||| b = a + b := by
  subst hm
  obtain ⟨q, rfl⟩ := Nat.dvd_of_mod_eq_zero ha
  exact (Nat.mul_add_lt_is_or hb q).symm

/-- Masking with 31 is reduction mod 32. -/
lemma and31_eq (x : Nat) : x &&& 31 = x % 32 := by
  have h := Nat.and_pow_two_sub_one_eq_mod x 5
  norm_num at h
  exact h

/-- Masking with 127 is reduction mod 128. -/
lemma and127_eq (x : Nat) : x &&& 127 = x % 128 := by
  have h := Nat.and_pow_two_sub_one_eq_mod x 7
  norm_num at h
  exact h

/-- Masking with 1023 is reduction mod 1024. -/
lemma and1023_eq (x : Nat) : x &&& 1023 = x % 1024 := by
  have h := Nat.and_pow_two_sub_one_eq_mod x 10
  norm_num at h
  exact h

/-- Masking with 131071 is reduction mod 2^17. -/
lemma and131071_eq (x : Nat) : x &&& 131071 = x % 131072 := by
  have h := Nat.and_pow_two_sub_one_eq_mod x 17
  norm_num at h
  exact h

/-- Masking with 4194303 is reduction mod 2^22. -/
lemma and4194303_eq (x : Nat) : x &&& 4194303 = x % 4194304 := by
  have h := Nat.and_pow_two_sub_one_eq_mod x 22
  norm_num at h
  exact h

/-! ### Behaviour of the device poll -/

/-- A quiet poll leaves the machine untouched: either interrupts are off,
or the clock has not fired and the TTY reports nothing pending. -/
lemma maybeInterrupt_quiet (vm : Vm.VM) (env : Vm.PollEnv)
    (h : (vm.S 0) &&& Vm.StatusInterrupts = 0 ∨
      (env.clockFire = false ∧ env.ttyResult = some false)) :
    vm.MaybeInterrupt env = (vm, none) := by
  unfold Vm.VM.MaybeInterrupt
  rcases h with h | ⟨h1, h2⟩
  · rw [if_pos h]
  · by_cases hI : (vm.S 0) &&& Vm.StatusInterrupts = 0
    · rw [if_pos hI]
    · rw [if_neg hI, if_neg (by simp [h1])]
      rcases htty : vm.tty with _ | t <;> simp [htty, h2]

/-! ### C9 -/

/-- C9: for every machine state, instruction word and poll outcome, GPR 0
equals 0 after Execute returns, whether it returns normally, with Halted,
or with a fault: the deferred write of the source resets it on every
path. -/
theorem c9_gpr0_zero_after_execute (vm : Vm.VM) (ci : Nat) (env : Vm.PollEnv) :
    (vm.Execute ci env).1.GPR 0 = 0 := by
  unfold Vm.VM.Execute
  simp [updf]

/-! ### C10 -/

/-- C10: executing a word whose opcode is 11 or higher is a silent no-op:
when the instruction-boundary poll raises nothing, Execute returns no
error and leaves PC, memory, the status registers and GPR 1..31
unchanged, only forcing GPR 0 to zero. -/
theorem c10_undefined_opcode_is_noop (vm : Vm.VM) (ci : Nat) (env : Vm.PollEnv)
    (hop : 11 ≤ Vm.DecodeOpcode ci)
    (hq : (vm.S 0) &&& Vm.StatusInterrupts = 0 ∨
      (env.clockFire = false ∧ env.ttyResult = some false)) :
    (vm.Execute ci env).2 = none ∧
    (vm.Execute ci env).1.PC = vm.PC ∧
    (vm.Execute ci env).1.M = vm.M ∧
    (vm.Execute ci env).1.S = vm.S ∧
    (∀ i, 1 ≤ i → (vm.Execute ci env).1.GPR i = vm.GPR i) ∧
    (vm.Execute ci env).1.GPR 0 = 0 := by
  have hsw : vm.execSwitch (Vm.DecodeOpcode ci) (Vm.DecodeRA ci) (Vm.DecodeRB ci)
      (Vm.DecodeRC ci) (Vm.DecodeImm17 ci) (Vm.DecodeImm22 ci) = (vm, none) := by
    unfold Vm.VM.execSwitch
    simp only [Vm.OpcodeJALR, Vm.OpcodeADD, Vm.OpcodeADDI, Vm.OpcodeNAND, Vm.OpcodeLUI,
      Vm.OpcodeSW, Vm.OpcodeLW, Vm.OpcodeBEQ, Vm.OpcodeWSR, Vm.OpcodeRSR, Vm.OpcodeIRET]
    repeat rw [if_neg (by omega)]
  have hbody : vm.execBody ci env = (vm, none) := by
    unfold Vm.VM.execBody
    rw [hsw]
    exact maybeInterrupt_quiet vm env hq
  unfold Vm.VM.Execute
  rw [hbody]
  refine ⟨rfl, rfl, rfl, rfl, ?_, ?_⟩
  · intro i hi
    simp [updf]
    omega
  · simp [updf]

/-- C10 witness: the word with opcode field 11 on the zeroed machine
under a quiet poll. -/
theorem c10_witness :
    (vmW.Execute 1476395008 envQ).2 = none ∧
    (vmW.Execute 1476395008 envQ).1.PC = vmW.PC ∧
    (vmW.Execute 1476395008 envQ).1.M = vmW.M ∧
    (vmW.Execute 1476395008 envQ).1.S = vmW.S ∧
    (∀ i, 1 ≤ i → (vmW.Execute 1476395008 envQ).1.GPR i = vmW.GPR i) ∧
    (vmW.Execute 1476395008 envQ).1.GPR 0 = 0 :=
  c10_undefined_opcode_is_noop vmW 1476395008 envQ (by decide) (Or.inr ⟨rfl, rfl⟩)

/-! ### C5 and C6: interrupt entry -/

/-- C5: whenever interrupt entry succeeds, the shadows receive the old
S 0, GPR 29 and PC, GPR 29 becomes the kernel interrupt stack base S 3,
the UserMode, Interrupts and Paging bits are cleared in S 0, and PC is
loaded from the vector table at S 2 plus the clamped code. -/
theorem c5_interrupt_entry_effects (vm : Vm.VM) (code : Nat)
    (h : (vm.Interrupt code).2 = none) :
    (vm.Interrupt code).1.IS0 = vm.S 0 ∧
    (vm.Interrupt code).1.ISP = vm.GPR 29 ∧
    (vm.Interrupt code).1.IPC = vm.PC ∧
    (vm.Interrupt code).1.GPR 29 = vm.S 3 ∧
    (vm.Interrupt code).1.S 0 &&& (Vm.StatusUserMode ||| Vm.StatusInterrupts ||| Vm.StatusPaging) = 0 ∧
    (vm.Interrupt code).1.PC = vm.M ((vm.S 2 + (if code < 16 then code else 0)) % 4294967296) := by
  have hcode : Vm.clampIrq code = (if code < 16 then code else 0) := by
    unfold Vm.clampIrq Vm.IrqHALT
    split_ifs <;> omega
  have hmask : ((vm.S 0 &&& 4294967288) &&& (Vm.StatusUserMode ||| Vm.StatusInterrupts ||| Vm.StatusPaging)) = 0 := by
    have h7 : (Vm.StatusUserMode ||| Vm.StatusInterrupts ||| Vm.StatusPaging : Nat) = 7 := by decide
    rw [h7, Nat.land_assoc, show ((4294967288 : Nat) &&& 7) = 0 from by decide]
    simp
  rw [show (if code < 16 then code else 0) = Vm.clampIrq code from hcode.symm]
  unfold Vm.VM.Interrupt at h ⊢
  split_ifs at h ⊢ with h1 h2 h3
  exact ⟨rfl, rfl, rfl, by simp [updf], by simpa [updf] using hmask, rfl⟩

/-- C6 (amended): when interrupt entry fails on one of the two alignment
checks the whole machine state is untouched; when it fails on the vector
table bounds check, PC, memory, S 1..3 and every general purpose
register other than 29 are untouched, but the shadows IS0, ISP and IPC,
GPR 29 and S 0 have already been updated exactly as in a successful
entry. -/
theorem c6_interrupt_fault_frame (vm : Vm.VM) (code : Nat)
    (h : (vm.Interrupt code).2 ≠ none) :
    (((vm.S 2) &&& 1023 ≠ 0 ∨ (vm.S 3) &&& 1023 ≠ 0) → (vm.Interrupt code).1 = vm) ∧
    ((vm.S 2) &&& 1023 = 0 ∧ (vm.S 3) &&& 1023 = 0 →
      (vm.Interrupt code).1.PC = vm.PC ∧
      (vm.Interrupt code).1.M = vm.M ∧
      (vm.Interrupt code).1.S 1 = vm.S 1 ∧
      (vm.Interrupt code).1.S 2 = vm.S 2 ∧
      (vm.Interrupt code).1.S 3 = vm.S 3 ∧
      (∀ i, i ≠ 29 → (vm.Interrupt code).1.GPR i = vm.GPR i) ∧
      (vm.Interrupt code).1.IS0 = vm.S 0 ∧
      (vm.Interrupt code).1.ISP = vm.GPR 29 ∧
      (vm.Interrupt code).1.IPC = vm.PC ∧
      (vm.Interrupt code).1.GPR 29 = vm.S 3 ∧
      (vm.Interrupt code).1.S 0 = (vm.S 0) &&& 4294967288) := by
  unfold Vm.VM.Interrupt at h ⊢
  split_ifs at h ⊢ with h1 h2 h3
  · exact ⟨fun _ => rfl, fun hal => absurd h1 (by simp [hal.1])⟩
  · exact ⟨fun _ => rfl, fun hal => absurd h2 (by simp [hal.2])⟩
  · refine ⟨fun hor => by rcases hor with hx | hx; exacts [absurd hx h1, absurd hx h2], fun _ => ?_⟩
    refine ⟨rfl, rfl, by simp [updf], by simp [updf], by simp [updf], ?_, rfl, rfl, rfl,
      by simp [updf], by simp [updf]⟩
    intro i hi
    simp [updf, hi]
  · simp at h

/-- C6 counterexample: on the machine vmA the vector table lookup faults
with Segfault, yet GPR 29 and the IPC shadow are not the values from
before the call, refuting the claim that the whole state is unchanged on
every interrupt entry error. -/
theorem c6_counterexample :
    (vmA.Interrupt 0).2 = some Vm.VMError.sigsegv ∧
    vmA.GPR 29 = 5 ∧ (vmA.Interrupt 0).1.GPR 29 = 0 ∧
    vmA.IPC = 0 ∧ (vmA.Interrupt 0).1.IPC = 7 := by decide

/-- C6 witness: the amended theorem applied to the concrete faulting
machine vmA. -/
theorem c6_witness :
    (((vmA.S 2) &&& 1023 ≠ 0 ∨ (vmA.S 3) &&& 1023 ≠ 0) → (vmA.Interrupt 0).1 = vmA) ∧
    ((vmA.S 2) &&& 1023 = 0 ∧ (vmA.S 3) &&& 1023 = 0 →
      (vmA.Interrupt 0).1.PC = vmA.PC ∧
      (vmA.Interrupt 0).1.M = vmA.M ∧
      (vmA.Interrupt 0).1.S 1 = vmA.S 1 ∧
      (vmA.Interrupt 0).1.S 2 = vmA.S 2 ∧
      (vmA.Interrupt 0).1.S 3 = vmA.S 3 ∧
      (∀ i, i ≠ 29 → (vmA.Interrupt 0).1.GPR i = vmA.GPR i) ∧
      (vmA.Interrupt 0).1.IS0 = vmA.S 0 ∧
      (vmA.Interrupt 0).1.ISP = vmA.GPR 29 ∧
      (vmA.Interrupt 0).1.IPC = vmA.PC ∧
      (vmA.Interrupt 0).1.GPR 29 = vmA.S 3 ∧
      (vmA.Interrupt 0).1.S 0 = (vmA.S 0) &&& 4294967288) :=
  c6_interrupt_fault_frame vmA 0 (by decide)

/-- C5 witness: interrupt entry on the zeroed machine with code 3
succeeds, and the entry effects follow from the theorem. -/
theorem c5_witness :
    (vmW.Interrupt 3).1.IS0 = vmW.S 0 ∧
    (vmW.Interrupt 3).1.ISP = vmW.GPR 29 ∧
    (vmW.Interrupt 3).1.IPC = vmW.PC ∧
    (vmW.Interrupt 3).1.GPR 29 = vmW.S 3 ∧
    (vmW.Interrupt 3).1.S 0 &&& (Vm.StatusUserMode ||| Vm.StatusInterrupts ||| Vm.StatusPaging) = 0 ∧
    (vmW.Interrupt 3).1.PC = vmW.M ((vmW.S 2 + (if 3 < 16 then 3 else 0)) % 4294967296) :=
  c5_interrupt_entry_effects vmW 3 (by decide)

/-! ### C1 and C2: assembler encoding against the CPU dispatch -/

/-- C1: the assembler and the CPU do not share the opcode numbering. The
word the assembler emits for jalr r31 r1 carries opcode field 8, the
value on which the CPU Execute dispatches WSR, while the CPU dispatches
JALR at 0; likewise the assembler uses 9 for wsr and 10 for rsr where
the CPU uses 8, 9 and 10 for WSR, RSR and IRET. -/
theorem c1_opcode_numbering_mismatch :
    (Asm.InstructionJALR.mk 31 1).Encode = Except.ok 1203896320 ∧
    Vm.DecodeOpcode 1203896320 = 8 ∧
    Asm.OpcodeJALR = 8 ∧ Vm.OpcodeJALR = 0 ∧ Vm.OpcodeWSR = 8 ∧
    Asm.OpcodeWSR = 9 ∧ Vm.OpcodeRSR = 9 ∧ Asm.OpcodeRSR = 10 ∧ Vm.OpcodeIRET = 10 := by
  decide

/-- C2: the words the assembler emits for wsr r1 2 and rsr r1 3 have
imm22 field 0, not the status register index: the encoder shifts the
resolved immediate right by 10 as LUI does, so every index in 0..3 is
sent to 0. -/
theorem c2_wsr_rsr_imm22_zeroed :
    (Asm.InstructionWSR.mk 1 2).Encode = Except.ok 1212153856 ∧
    Vm.DecodeImm22 1212153856 = 0 ∧
    (Asm.InstructionRSR.mk 1 3).Encode = Except.ok 1346371584 ∧
    Vm.DecodeImm22 1346371584 = 0 := by
  decide

/-! ### C4: IRET right after interrupt entry -/

/-- Executing an IRET word in kernel mode with a quiet poll restores S 0,
GPR 29 and PC from the shadows and resets GPR 0. -/
lemma execute_iret (s : Vm.VM) (ci : Nat) (env : Vm.PollEnv)
    (hop : Vm.DecodeOpcode ci = Vm.OpcodeIRET)
    (hum : (s.S 0) &&& Vm.StatusUserMode = 0)
    (hclk : env.clockFire = false) (htty : env.ttyResult = some false) :
    s.Execute ci env =
      ({ s with S := updf s.S 0 s.IS0, GPR := updf (updf s.GPR 29 s.ISP) 0 0, PC := s.IPC },
        none) := by
  have hsw : s.execSwitch (Vm.DecodeOpcode ci) (Vm.DecodeRA ci) (Vm.DecodeRB ci)
      (Vm.DecodeRC ci) (Vm.DecodeImm17 ci) (Vm.DecodeImm22 ci) =
      ({ s with S := updf s.S 0 s.IS0, GPR := updf s.GPR 29 s.ISP, PC := s.IPC }, none) := by
    unfold Vm.VM.execSwitch
    rw [hop]
    simp only [Vm.OpcodeIRET, Vm.OpcodeJALR, Vm.OpcodeADD, Vm.OpcodeADDI, Vm.OpcodeNAND,
      Vm.OpcodeLUI, Vm.OpcodeSW, Vm.OpcodeLW, Vm.OpcodeBEQ, Vm.OpcodeWSR, Vm.OpcodeRSR]
    repeat rw [if_neg (by omega)]
    simp [hum]
  have hq : ∀ s2 : Vm.VM, s2.MaybeInterrupt env = (s2, none) :=
    fun s2 => maybeInterrupt_quiet s2 env (Or.inr ⟨hclk, htty⟩)
  unfold Vm.VM.Execute Vm.VM.execBody
  rw [hsw]
  simp only [hq]

/-- C4: if interrupt entry succeeds and the first instruction the handler
executes is an IRET word, with a quiet poll at the following instruction
boundary, then PC, GPR 29 and S 0 are exactly their values from before
the interrupt was delivered. -/
theorem c4_iret_restores_preinterrupt_state (vm : Vm.VM) (code ci : Nat) (env : Vm.PollEnv)
    (hInt : (vm.Interrupt code).2 = none)
    (hop : Vm.DecodeOpcode ci = Vm.OpcodeIRET)
    (hclk : env.clockFire = false)
    (htty : env.ttyResult = some false) :
    ((vm.Interrupt code).1.Execute ci env).2 = none ∧
    ((vm.Interrupt code).1.Execute ci env).1.PC = vm.PC ∧
    ((vm.Interrupt code).1.Execute ci env).1.GPR 29 = vm.GPR 29 ∧
    ((vm.Interrupt code).1.Execute ci env).1.S 0 = vm.S 0 := by
  unfold Vm.VM.Interrupt at hInt ⊢
  split_ifs at hInt ⊢ with h1 h2 h3
  rw [execute_iret _ ci env hop ?_ hclk htty]
  · refine ⟨rfl, rfl, by simp [updf], by simp [updf]⟩
  · show (updf vm.S 0 ((vm.S 0) &&& 4294967288)) 0 &&& Vm.StatusUserMode = 0
    have hu : (updf vm.S 0 ((vm.S 0) &&& 4294967288)) 0 = (vm.S 0) &&& 4294967288 := by
      simp [updf]
    rw [hu, Vm.StatusUserMode, Nat.land_assoc, show ((4294967288 : Nat) &&& 1) = 0 from by decide]
    simp

/-- C4 witness: on the zeroed machine, interrupt entry with code 1
followed by the canonical IRET word under a quiet poll restores PC,
GPR 29 and S 0. -/
theorem c4_witness :
    ((vmW.Interrupt 1).1.Execute 1342177280 envQ).2 = none ∧
    ((vmW.Interrupt 1).1.Execute 1342177280 envQ).1.PC = vmW.PC ∧
    ((vmW.Interrupt 1).1.Execute 1342177280 envQ).1.GPR 29 = vmW.GPR 29 ∧
    ((vmW.Interrupt 1).1.Execute 1342177280 envQ).1.S 0 = vmW.S 0 :=
  c4_iret_restores_preinterrupt_state vmW 1 1342177280 envQ (by decide) (by decide) rfl rfl

/-! ### C7: paged address translation -/

/-- C7: for every memory access with the Paging flag set whose address is
not routed to an MMIO register, VM.Memory behaves exactly as the
specification words it (captured by pagedTranslateSpec): Segfault on a
page table base that is not a multiple of 1024 or an out-of-memory page
entry index, NotPermitted unless every requested flag bit is present in
the entry, otherwise the physical address is the or of the masked entry
base and the low address bits, with a final Segfault bounds check. The
requested flags of every CPU access are a subset of the R, W and X bits,
hence the hypothesis flags < 8. -/
theorem c7_paged_access_translation (vm : Vm.VM) (off flags : Nat)
    (hpag : (vm.S 0) &&& Vm.StatusPaging ≠ 0)
    (hflags : flags < 8)
    (hclk2 : off ≠ Vm.MMClockFrequency)
    (htty2 : vm.tty.isSome = true → off ≠ Vm.MMTTYStatus ∧ off ≠ Vm.MMTTYIn ∧ off ≠ Vm.MMTTYOut) :
    vm.Memory off flags = pagedTranslateSpec vm off flags := by
  have hentry : ∀ e : Nat, (e &&& 127) &&& flags = e &&& flags := by
    intro e
    rw [Nat.land_assoc]
    rw [show (127 &&& flags) = flags from by
      rw [Nat.land_comm, and127_eq]; omega]
  have hphys : ∀ e : Nat,
      ((e &&& 4294966272) + (off &&& 1023)) % 4294967296 =
        (e &&& 4294966272) ||| (off &&& 1023) := by
    intro e
    have hb : (e &&& 4294966272) % 1024 = 0 := by
      rw [← and1023_eq, Nat.land_assoc, show ((4294966272 : Nat) &&& 1023) = 0 from by decide]
      simp
    have hlt : (e &&& 4294966272) ≤ 4294966272 := Nat.and_le_right
    have hlo : (off &&& 1023) < 1024 := by
      rw [and1023_eq]; omega
    rw [Nat.mod_eq_of_lt (by omega)]
    exact (lor_eq_add_gen 10 1024 _ _ (by norm_num) hb hlo).symm
  have hmem : vm.Memory off flags =
      match vm.pagedAccess off flags with
      | Except.error e => Except.error e
      | Except.ok physical =>
          if physical ≥ Vm.MemorySize then Except.error Vm.VMError.sigsegv
          else Except.ok (Vm.MemRef.mem physical) := by
    unfold Vm.VM.Memory
    rcases ht : vm.tty with _ | t
    · rw [if_neg hclk2, if_neg (by simp [ht]), if_neg (by simp [ht]), if_neg (by simp [ht])]
    · have h3 := htty2 (by simp [ht])
      rw [if_neg hclk2, if_neg (by simp [h3.1]), if_neg (by simp [h3.2.1]),
        if_neg (by simp [h3.2.2])]
  rw [hmem]
  unfold Vm.VM.pagedAccess pagedTranslateSpec
  rw [if_pos hpag]
  rw [hentry (vm.M ((vm.S 1 + off >>> 10) % 4294967296))]
  rw [hphys (vm.M ((vm.S 1 + off >>> 10) % 4294967296))]
  rw [and1023_eq (vm.S 1)]
  simp only [show (2 : Nat) ^ 20 = Vm.MemorySize from by norm_num [Vm.MemorySize]]
  split_ifs <;> first | rfl | simp_all

/-- C7 witness: on the machine vmP (paging on, aligned table at 0, every
entry granting R, W and X over base 0) the access to address 5 with the
read flag translates as the specification describes. -/
theorem c7_witness : vmP.Memory 5 4 = pagedTranslateSpec vmP 5 4 :=
  c7_paged_access_translation vmP 5 4 (by decide) (by decide) (by decide) (by decide)

/-! ### C8: the Halted error -/

/-- Interrupt entry never reports Halted. -/
lemma interrupt_no_halt (vm : Vm.VM) (code : Nat) :
    (vm.Interrupt code).2 ≠ some Vm.VMError.halted := by
  unfold Vm.VM.Interrupt
  split_ifs <;> simp

/-- Memory access never reports Halted. -/
lemma memory_no_halt (vm : Vm.VM) (off flags : Nat) :
    vm.Memory off flags ≠ Except.error Vm.VMError.halted := by
  unfold Vm.VM.Memory Vm.VM.pagedAccess
  split_ifs <;> try simp
  all_goals split_ifs <;> simp

/-- The device poll never reports Halted. -/
lemma maybeInterrupt_no_halt (vm : Vm.VM) (env : Vm.PollEnv) :
    (vm.MaybeInterrupt env).2 ≠ some Vm.VMError.halted := by
  unfold Vm.VM.MaybeInterrupt
  split_ifs
  · simp
  · exact interrupt_no_halt vm Vm.IrqClock
  · rcases htty : vm.tty with _ | t
    · simp
    · rcases henv : env.ttyResult with _ | b
      · simp
      · cases b
        · simp
        · simpa using interrupt_no_halt vm Vm.IrqTTY

/-- The dispatch switch reports Halted exactly on a JALR with both
register fields zero while interrupts are disabled. -/
lemma execSwitch_halted_iff (vm : Vm.VM) (o ra rb rc i17 i22 : Nat) :
    (vm.execSwitch o ra rb rc i17 i22).2 = some Vm.VMError.halted ↔
      (o = Vm.OpcodeJALR ∧ ra = 0 ∧ rb = 0 ∧ (vm.S 0) &&& Vm.StatusInterrupts = 0) := by
  unfold Vm.VM.execSwitch
  by_cases h0 : o = Vm.OpcodeJALR
  · rw [if_pos h0]
    by_cases hra : ra ≠ 0 ∨ rb ≠ 0
    · rw [if_pos hra]
      refine iff_of_false (fun hc => Option.noConfusion hc) ?_
      rintro ⟨_, hA, hB, _⟩
      rcases hra with h | h
      exacts [h hA, h hB]
    · rw [if_neg hra]
      push_neg at hra
      by_cases hb : (vm.S 0) &&& Vm.StatusInterrupts = 0
      · rw [if_pos hb]
        exact iff_of_true rfl ⟨h0, hra.1, hra.2, hb⟩
      · rw [if_neg hb]
        refine iff_of_false (interrupt_no_halt vm i17) ?_
        rintro ⟨_, _, _, hbb⟩
        exact hb hbb
  · rw [if_neg h0]
    refine iff_of_false ?_ (by rintro ⟨hh, _⟩; exact h0 hh)
    by_cases h1 : o = Vm.OpcodeADD
    · rw [if_pos h1]
      exact fun hc => Option.noConfusion hc
    rw [if_neg h1]
    by_cases h2 : o = Vm.OpcodeADDI
    · rw [if_pos h2]
      exact fun hc => Option.noConfusion hc
    rw [if_neg h2]
    by_cases h3 : o = Vm.OpcodeNAND
    · rw [if_pos h3]
      exact fun hc => Option.noConfusion hc
    rw [if_neg h3]
    by_cases h4 : o = Vm.OpcodeLUI
    · rw [if_pos h4]
      exact fun hc => Option.noConfusion hc
    rw [if_neg h4]
    by_cases h5 : o = Vm.OpcodeSW
    · rw [if_pos h5]
      intro hc
      rcases hm : vm.Memory ((vm.GPR rb + i17) % 4294967296) Vm.MemoryWrite with e | r
      · rw [hm] at hc
        exact memory_no_halt _ _ _ (hm.trans (congrArg Except.error (Option.some.inj hc)))
      · rw [hm] at hc
        exact Option.noConfusion hc
    rw [if_neg h5]
    by_cases h6 : o = Vm.OpcodeLW
    · rw [if_pos h6]
      intro hc
      rcases hm : vm.Memory ((vm.GPR rb + i17) % 4294967296) Vm.MemoryRead with e | r
      · rw [hm] at hc
        exact memory_no_halt _ _ _ (hm.trans (congrArg Except.error (Option.some.inj hc)))
      · rw [hm] at hc
        exact Option.noConfusion hc
    rw [if_neg h6]
    by_cases h7 : o = Vm.OpcodeBEQ
    · rw [if_pos h7]
      intro hc
      by_cases hbeq : vm.GPR ra = vm.GPR rb
      · rw [if_pos hbeq] at hc
        exact Option.noConfusion hc
      · rw [if_neg hbeq] at hc
        exact Option.noConfusion hc
    rw [if_neg h7]
    by_cases h8 : o = Vm.OpcodeWSR
    · rw [if_pos h8]
      intro hc
      by_cases hu : (vm.S 0) &&& Vm.StatusUserMode ≠ 0
      · rw [if_pos hu] at hc
        exact Vm.VMError.noConfusion (Option.some.inj hc)
      · rw [if_neg hu] at hc
        by_cases hi : i22 ≥ Vm.NumStatusRegisters
        · rw [if_pos hi] at hc
          exact Vm.VMError.noConfusion (Option.some.inj hc)
        · rw [if_neg hi] at hc
          exact Option.noConfusion hc
    rw [if_neg h8]
    by_cases h9 : o = Vm.OpcodeRSR
    · rw [if_pos h9]
      intro hc
      by_cases hu : (vm.S 0) &&& Vm.StatusUserMode ≠ 0
      · rw [if_pos hu] at hc
        exact Vm.VMError.noConfusion (Option.some.inj hc)
      · rw [if_neg hu] at hc
        by_cases hi : i22 ≥ Vm.NumStatusRegisters
        · rw [if_pos hi] at hc
          exact Vm.VMError.noConfusion (Option.some.inj hc)
        · rw [if_neg hi] at hc
          exact Option.noConfusion hc
    rw [if_neg h9]
    by_cases h10 : o = Vm.OpcodeIRET
    · rw [if_pos h10]
      intro hc
      by_cases hu : (vm.S 0) &&& Vm.StatusUserMode ≠ 0
      · rw [if_pos hu] at hc
        exact Vm.VMError.noConfusion (Option.some.inj hc)
      · rw [if_neg hu] at hc
        exact Option.noConfusion hc
    rw [if_neg h10]
    exact fun hc => Option.noConfusion hc

/-- C8: Execute returns the Halted error if and only if the word decodes
to opcode JALR with both register fields zero while the Interrupts flag
is clear; in particular a fetched all-zero word halts a machine whose
interrupts are disabled, and no other instruction or poll outcome
produces Halted. -/
theorem c8_halted_iff (vm : Vm.VM) (ci : Nat) (env : Vm.PollEnv) :
    (vm.Execute ci env).2 = some Vm.VMError.halted ↔
      (Vm.DecodeOpcode ci = Vm.OpcodeJALR ∧ Vm.DecodeRA ci = 0 ∧ Vm.DecodeRB ci = 0 ∧
        (vm.S 0) &&& Vm.StatusInterrupts = 0) := by
  have hiff := execSwitch_halted_iff vm (Vm.DecodeOpcode ci) (Vm.DecodeRA ci) (Vm.DecodeRB ci)
    (Vm.DecodeRC ci) (Vm.DecodeImm17 ci) (Vm.DecodeImm22 ci)
  unfold Vm.VM.Execute Vm.VM.execBody
  rcases hsw : vm.execSwitch (Vm.DecodeOpcode ci) (Vm.DecodeRA ci) (Vm.DecodeRB ci)
      (Vm.DecodeRC ci) (Vm.DecodeImm17 ci) (Vm.DecodeImm22 ci) with ⟨vm1, e⟩
  rw [hsw] at hiff
  rcases e with _ | e
  · simp only [hsw]
    refine iff_of_false ?_ (fun hr => by simpa using hiff.mpr hr)
    simpa using maybeInterrupt_no_halt vm1 env
  · simp only [hsw]
    simpa using hiff

/-! ### C3: re-encoding decoded words -/

/-- Field packing for the four-field instruction layouts: with the two
register fields below 32 and the tail below 2^17, the or-composition is
plain positional arithmetic. -/
lemma four_fields (a b c d : Nat) (hb : b < 32) (hc : c < 32) (hd : d < 131072) :
    (a <<< 27) ||| (b <<< 22) ||| (c <<< 17) ||| d
      = a * 134217728 + b * 4194304 + c * 131072 + d := by
  have e1 : a <<< 27 = a * 134217728 := by rw [Nat.shiftLeft_eq]
  have e2 : b <<< 22 = b * 4194304 := by rw [Nat.shiftLeft_eq]
  have e3 : c <<< 17 = c * 131072 := by rw [Nat.shiftLeft_eq]
  rw [e1, e2, e3]
  rw [lor_eq_add_gen 27 134217728 (a * 134217728) (b * 4194304) (by norm_num)
    (by omega) (by omega)]
  rw [lor_eq_add_gen 22 4194304 (a * 134217728 + b * 4194304) (c * 131072) (by norm_num)
    (by omega) (by omega)]
  rw [lor_eq_add_gen 17 131072 (a * 134217728 + b * 4194304 + c * 131072) d (by norm_num)
    (by omega) hd]

/-- Arithmetic reading of the opcode field. -/
lemma decodeOpcode_arith (w : Nat) : Vm.DecodeOpcode w = w / 134217728 % 32 := by
  unfold Vm.DecodeOpcode
  rw [Nat.shiftRight_eq_div_pow, and31_eq]

/-- Arithmetic reading of the rA field. -/
lemma decodeRA_arith (w : Nat) : Vm.DecodeRA w = w / 4194304 % 32 := by
  unfold Vm.DecodeRA
  rw [Nat.shiftRight_eq_div_pow, and31_eq]

/-- Arithmetic reading of the rB field. -/
lemma decodeRB_arith (w : Nat) : Vm.DecodeRB w = w / 131072 % 32 := by
  unfold Vm.DecodeRB
  rw [Nat.shiftRight_eq_div_pow, and31_eq]

/-- Arithmetic reading of the rC field. -/
lemma decodeRC_arith (w : Nat) : Vm.DecodeRC w = w % 32 := by
  unfold Vm.DecodeRC
  rw [and31_eq]

/-- Sign extension as arithmetic on the 17-bit field. -/
lemma signext17_eq (x : Nat) (hx : x < 131072) :
    Vm.SignExtend17 x = if x < 65536 then x else 4294836224 + x := by
  unfold Vm.SignExtend17
  have hand : x &&& 65536 = if x < 65536 then 0 else 65536 := by
    have h := Nat.and_two_pow x 16
    rw [Nat.testBit_to_div_mod] at h
    norm_num at h
    by_cases hlt : x < 65536
    · have hz : x / 65536 % 2 = 0 := by omega
      simp [hz] at h
      simp [hlt, h]
    · have ho : x / 65536 % 2 = 1 := by omega
      simp [ho] at h
      simp [hlt, h]
  rw [hand]
  by_cases hlt : x < 65536
  · simp [hlt]
  · simp only [if_neg hlt]
    rw [if_pos (by norm_num)]
    rw [Nat.lor_comm]
    exact lor_eq_add_gen 17 131072 4294836224 x (by norm_num) (by norm_num) hx

/-- The re-encoding path for a decoded 17-bit immediate: the signed
int32 reading of the sign-extended field passes the 17-bit range check
of CastToUint32 and casts back to the sign-extended word. -/
lemma cast_signext17 (x : Nat) (hx : x < 131072) :
    Asm.CastToUint32 (Asm.toInt32 (Vm.SignExtend17 x)) 17 = Except.ok (Vm.SignExtend17 x) := by
  rw [signext17_eq x hx]
  by_cases hlt : x < 65536
  · rw [if_pos hlt]
    unfold Asm.toInt32 Asm.CastToUint32
    rw [if_pos (show x < 2147483648 by omega)]
    rw [if_neg (show ¬((x : Int) < -(2 ^ (17 - 1)) ∨ (x : Int) > 2 ^ (17 - 1) - 1) by
      push_cast
      norm_num
      omega)]
    have hval : (((x : Int)) % 4294967296).toNat = x := by omega
    rw [hval]
  · rw [if_neg hlt]
    unfold Asm.toInt32 Asm.CastToUint32
    rw [if_neg (show ¬(4294836224 + x < 2147483648) by omega)]
    rw [if_neg (show ¬(((4294836224 + x : Nat) : Int) - 4294967296 < -(2 ^ (17 - 1)) ∨
        ((4294836224 + x : Nat) : Int) - 4294967296 > 2 ^ (17 - 1) - 1) by
      push_cast
      norm_num
      omega)]
    have hval : ((((4294836224 + x : Nat) : Int) - 4294967296) % 4294967296).toNat
        = 4294836224 + x := by
      push_cast
      omega
    rw [hval]

/-- The low 17 bits of the sign-extended field recover the field. -/
lemma signext17_low (x : Nat) (hx : x < 131072) :
    Vm.SignExtend17 x &&& 131071 = x := by
  rw [signext17_eq x hx, and131071_eq]
  split_ifs <;> omega

/-- Encode of ADDI once the immediate cast is known to succeed. -/
lemma addi_encode_ok (ra rb : Nat) (v : Int) (u : Nat)
    (h : Asm.CastToUint32 v 17 = Except.ok u) :
    (Asm.InstructionADDI.mk ra rb v).Encode =
      Except.ok (((Asm.OpcodeADDI &&& 31) <<< 27) ||| ((ra &&& 31) <<< 22)
        ||| ((rb &&& 31) <<< 17) ||| (u &&& 131071)) := by
  unfold Asm.InstructionADDI.Encode
  rw [h]

/-- Encode of SW once the immediate cast is known to succeed. -/
lemma sw_encode_ok (ra rb : Nat) (v : Int) (u : Nat)
    (h : Asm.CastToUint32 v 17 = Except.ok u) :
    (Asm.InstructionSW.mk ra rb v).Encode =
      Except.ok (((Asm.OpcodeSW &&& 31) <<< 27) ||| ((ra &&& 31) <<< 22)
        ||| ((rb &&& 31) <<< 17) ||| (u &&& 131071)) := by
  unfold Asm.InstructionSW.Encode
  rw [h]

/-- Encode of LW once the immediate cast is known to succeed. -/
lemma lw_encode_ok (ra rb : Nat) (v : Int) (u : Nat)
    (h : Asm.CastToUint32 v 17 = Except.ok u) :
    (Asm.InstructionLW.mk ra rb v).Encode =
      Except.ok (((Asm.OpcodeLW &&& 31) <<< 27) ||| ((ra &&& 31) <<< 22)
        ||| ((rb &&& 31) <<< 17) ||| (u &&& 131071)) := by
  unfold Asm.InstructionLW.Encode
  rw [h]

/-- C3 (amended): re-encoding the fields obtained from the CPU Decode
yields the original word exactly for the opcodes ADD, ADDI, NAND, SW and
LW of the CPU numbering, where for the two RRR forms the unused bits
5..16 must be zero; the round-trip fails in general for JALR, LUI, BEQ,
WSR, RSR and IRET words. -/
theorem c3_reencode_roundtrip (w pc : Nat) (hw : w < 4294967296)
    (hop : Vm.DecodeOpcode w = 1 ∨ Vm.DecodeOpcode w = 2 ∨ Vm.DecodeOpcode w = 3 ∨
      Vm.DecodeOpcode w = 5 ∨ Vm.DecodeOpcode w = 6)
    (hrrr : Vm.DecodeOpcode w = 1 ∨ Vm.DecodeOpcode w = 3 → w / 32 % 4096 = 0) :
    Asm.reencode pc w = Except.ok w := by
  have harith := decodeOpcode_arith w
  rcases hop with hcase | hcase | hcase | hcase | hcase
  · have hu : w / 32 % 4096 = 0 := hrrr (Or.inl hcase)
    unfold Asm.reencode
    rw [hcase]
    simp only [Vm.OpcodeJALR, Vm.OpcodeADD, Vm.OpcodeADDI, Vm.OpcodeNAND, Vm.OpcodeLUI, Vm.OpcodeSW, Vm.OpcodeLW, Vm.OpcodeBEQ, Vm.OpcodeWSR, Vm.OpcodeRSR, if_true, if_false]
    unfold Asm.InstructionADD.Encode
    refine congrArg Except.ok ?_
    rw [four_fields _ _ _ _ (by rw [and31_eq]; omega) (by rw [and31_eq]; omega)
      (by rw [and31_eq]; omega)]
    simp only [Asm.OpcodeADD, decodeRA_arith, decodeRB_arith, decodeRC_arith, and31_eq]
    rw [harith] at hcase
    omega
  · unfold Asm.reencode
    rw [hcase]
    simp only [Vm.OpcodeJALR, Vm.OpcodeADD, Vm.OpcodeADDI, Vm.OpcodeNAND, Vm.OpcodeLUI, Vm.OpcodeSW, Vm.OpcodeLW, Vm.OpcodeBEQ, Vm.OpcodeWSR, Vm.OpcodeRSR, if_true, if_false]
    have hx : (w &&& 131071) < 131072 := by rw [and131071_eq]; omega
    rw [show Vm.DecodeImm17 w = Vm.SignExtend17 (w &&& 131071) from rfl]
    rw [addi_encode_ok _ _ _ _ (cast_signext17 _ hx)]
    refine congrArg Except.ok ?_
    rw [signext17_low _ hx]
    rw [four_fields _ _ _ _ (by rw [and31_eq]; omega) (by rw [and31_eq]; omega)
      (by rw [and131071_eq]; omega)]
    simp only [Asm.OpcodeADDI, decodeRA_arith, decodeRB_arith, and31_eq, and131071_eq]
    rw [harith] at hcase
    omega
  · have hu : w / 32 % 4096 = 0 := hrrr (Or.inr hcase)
    unfold Asm.reencode
    rw [hcase]
    simp only [Vm.OpcodeJALR, Vm.OpcodeADD, Vm.OpcodeADDI, Vm.OpcodeNAND, Vm.OpcodeLUI, Vm.OpcodeSW, Vm.OpcodeLW, Vm.OpcodeBEQ, Vm.OpcodeWSR, Vm.OpcodeRSR, if_true, if_false]
    unfold Asm.InstructionNAND.Encode
    refine congrArg Except.ok ?_
    rw [four_fields _ _ _ _ (by rw [and31_eq]; omega) (by rw [and31_eq]; omega)
      (by rw [and31_eq]; omega)]
    simp only [Asm.OpcodeNAND, decodeRA_arith, decodeRB_arith, decodeRC_arith, and31_eq]
    rw [harith] at hcase
    omega
  · unfold Asm.reencode
    rw [hcase]
    simp only [Vm.OpcodeJALR, Vm.OpcodeADD, Vm.OpcodeADDI, Vm.OpcodeNAND, Vm.OpcodeLUI, Vm.OpcodeSW, Vm.OpcodeLW, Vm.OpcodeBEQ, Vm.OpcodeWSR, Vm.OpcodeRSR, if_true, if_false]
    have hx : (w &&& 131071) < 131072 := by rw [and131071_eq]; omega
    rw [show Vm.DecodeImm17 w = Vm.SignExtend17 (w &&& 131071) from rfl]
    rw [sw_encode_ok _ _ _ _ (cast_signext17 _ hx)]
    refine congrArg Except.ok ?_
    rw [signext17_low _ hx]
    rw [four_fields _ _ _ _ (by rw [and31_eq]; omega) (by rw [and31_eq]; omega)
      (by rw [and131071_eq]; omega)]
    simp only [Asm.OpcodeSW, decodeRA_arith, decodeRB_arith, and31_eq, and131071_eq]
    rw [harith] at hcase
    omega
  · unfold Asm.reencode
    rw [hcase]
    simp only [Vm.OpcodeJALR, Vm.OpcodeADD, Vm.OpcodeADDI, Vm.OpcodeNAND, Vm.OpcodeLUI, Vm.OpcodeSW, Vm.OpcodeLW, Vm.OpcodeBEQ, Vm.OpcodeWSR, Vm.OpcodeRSR, if_true, if_false]
    have hx : (w &&& 131071) < 131072 := by rw [and131071_eq]; omega
    rw [show Vm.DecodeImm17 w = Vm.SignExtend17 (w &&& 131071) from rfl]
    rw [lw_encode_ok _ _ _ _ (cast_signext17 _ hx)]
    refine congrArg Except.ok ?_
    rw [signext17_low _ hx]
    rw [four_fields _ _ _ _ (by rw [and31_eq]; omega) (by rw [and31_eq]; omega)
      (by rw [and131071_eq]; omega)]
    simp only [Asm.OpcodeLW, decodeRA_arith, decodeRB_arith, and31_eq, and131071_eq]
    rw [harith] at hcase
    omega

/-- C3 counterexample: the round-trip fails at the all-zero word (a JALR,
re-encoded with opcode 8), at a LUI word with immediate 1 (the shifted
immediate loses the low bits), at an ADD word with an unused bit set, at
a BEQ word (the encoder treats the immediate as an absolute target), at
WSR and RSR words (shifted opcode numbering), and at the IRET word,
which the assembler cannot encode at all. -/
theorem c3_counterexample :
    Asm.reencode 0 0 ≠ Except.ok 0 ∧
    Asm.reencode 0 536870913 ≠ Except.ok 536870913 ∧
    Asm.reencode 0 134217760 ≠ Except.ok 134217760 ∧
    Asm.reencode 0 939524101 ≠ Except.ok 939524101 ∧
    Asm.reencode 0 1073741827 ≠ Except.ok 1073741827 ∧
    Asm.reencode 0 1207959552 ≠ Except.ok 1207959552 ∧
    Asm.reencode 0 1342177280 ≠ Except.ok 1342177280 := by
  decide

/-- C3 witness: the word 281673727 (opcode ADDI, rA 3, rB 4, immediate
field 131071, the encoding of addi r3 r4 -1) round-trips exactly. -/
theorem c3_witness : Asm.reencode 0 281673727 = Except.ok 281673727 :=
  c3_reencode_roundtrip 281673727 0 (by decide) (by decide) (by decide)

end RiSC32
